import Mathlib

/-!
Shallow embedding of the sensor polling and metric-publication loop of
nimdanitro/again-scraper-go.

Sources embedded:
- `src/main.go` (current revision): the `egain` package types (`Sensor`,
  `indoorData`, `SensorReading`), the fetcher (`NewFetcher`, `WithSensors`,
  `WithLogger`, `Client.fetchSensorData`, `Client.Fetch`), and the `main`
  function's `readSensors` closure and ticker loop.
- `src/unnamed/part_000` (first revision): the per-sensor goroutine body.

Modelling conventions: Go `float64` values (temperature, humidity) are
rationals; `time.Time` instants are rationals (seconds since epoch), with the
Go zero value `time.Time{}` modelled as `0`; the `context.Context` is a record
of an optional deadline and an optional cancellation instant; the upstream
HTTP exchange is an oracle parameter giving each call its transport outcome.
-/

namespace AgainScraper

/-! ## Data model (src/main.go, package egain, types section) -/

/-- Go struct `egain.Sensor`: location label, sensor identifier, and the
unexported `lastReading time.Time` field (zero value `0` until assigned). -/
structure Sensor where
  location : String
  sensorID : String
  lastReading : ℚ := 0
deriving Repr, DecidableEq

/-- Go struct `egain.indoorData`: the decoded JSON telemetry payload.
`externalTemperatures` and `values` are uninterpreted by the core and are
modelled as opaque counts of array elements (the core never reads them). -/
structure indoorData where
  externalTemperatures : Nat := 0
  humidity : ℚ
  installed : Bool := false
  temperature : ℚ
  timestamp : ℚ
  values : Nat := 0
deriving Repr, DecidableEq

/-- Go struct `egain.SensorReading`: embeds `indoorData` and `Sensor`;
modelled as a pair of the two components, with the embedded fields reached
through the projections. -/
structure SensorReading where
  data : indoorData
  sensor : Sensor
deriving Repr, DecidableEq

/-! ## Metrics Publisher (src/main.go, `readSensors` closure, lines 100-129)

OpenTelemetry `Float64Gauge.Record` with attributes `(sensor.id,
sensor.location)` is last-write-wins per attribute key; the gauge contents are
an association list from key to last recorded value.  The
`sensor.lastReading.duration` `Float64Histogram` accumulates samples, modelled
as the list of recorded `(key, value)` observations in record order. -/

/-- Key of a gauge entry: (sensor identifier, location label). -/
abbrev GaugeKey := String × String

/-- Gauge contents: last recorded value per (id, location) key. -/
abbrev GaugeMap := List (GaugeKey × ℚ)

/-- `Record` on a gauge: overwrite the value at `k`, keep other keys. -/
def setGauge (g : GaugeMap) (k : GaugeKey) (v : ℚ) : GaugeMap :=
  (k, v) :: g.filter (fun p => p.1 ≠ k)

/-- Read a gauge at a key. -/
def lookupGauge (g : GaugeMap) (k : GaugeKey) : Option ℚ :=
  (g.find? (fun p => p.1 = k)).map (fun p => p.2)

/-- The three instruments created in `main`: the temperature gauge, the
humidity gauge, and the `sensor.lastReading.duration` histogram. -/
structure Metrics where
  temperature : GaugeMap := []
  humidity : GaugeMap := []
  lastReadingHist : List (GaugeKey × ℚ) := []
deriving Repr, DecidableEq

/-- Body of the `for _, data := range sensorReadings` loop of `readSensors`
(src/main.go lines 108-128) for one reading, at wall-clock instant `now`:

- `temperature.Record(ctx, data.Temperature, ...)`            (line 116)
- `humidity.Record(ctx, data.Temperature, ...)`               (line 120;
  the source records `data.Temperature`, not `data.Humidity`)
- `lastReading.Record(ctx, time.Since(data.Timestamp).Seconds(), ...)`
                                                               (line 124) -/
def publishReading (now : ℚ) (m : Metrics) (d : SensorReading) : Metrics :=
  let k : GaugeKey := (d.sensor.sensorID, d.sensor.location)
  { temperature := setGauge m.temperature k d.data.temperature
    humidity := setGauge m.humidity k d.data.temperature
    lastReadingHist := m.lastReadingHist ++ [(k, now - d.data.timestamp)] }

/-- The `readSensors` closure (src/main.go lines 100-129): on a fetch error it
logs and returns without touching the instruments; otherwise it publishes
every returned reading in order.  No field of a reading is inspected before
publication (in particular the capture timestamp is not validated). -/
def readSensors (now : ℚ) (m : Metrics)
    (fetchResult : Except String (List SensorReading)) : Metrics :=
  match fetchResult with
  | .error _ => m
  | .ok readings => readings.foldl (publishReading now) m

/-! ## Context and rate limiter

The `context.Context` reaching a fetch carries at most a deadline (from
`context.WithTimeout`) and a cancellation instant (from the process signal). -/

/-- A Go context, reduced to what the core observes: an optional deadline and
an optional instant at which the context is cancelled. -/
structure Ctx where
  deadline : Option ℚ := none
  cancelAt : Option ℚ := none
deriving Repr, DecidableEq

/-- `ctx.Err() != nil` at instant `t`: the context was already cancelled. -/
def Ctx.cancelledAt (ctx : Ctx) (t : ℚ) : Bool :=
  match ctx.cancelAt with
  | none => false
  | some tc => tc ≤ t

/-- Modelled from the spec: the shared token-bucket limiter of
`golang.org/x/time/rate` (not part of this repository), as the spec describes
it: a refill interval in seconds per token ("one token every 5 seconds") and a
burst capacity ("burst of 4"). -/
structure Limiter where
  interval : ℚ
  burst : ℚ
deriving Repr, DecidableEq

/-- Mutable limiter state: tokens currently available (may be negative while
reservations are outstanding) and the instant of the last update. -/
structure LimState where
  tokens : ℚ
  last : ℚ
deriving Repr, DecidableEq

/-- Token count after advancing the bucket from its last update to instant
`t`: refill at one token per `interval`, capped at `burst`. -/
def Limiter.advanceTokens (l : Limiter) (st : LimState) (t : ℚ) : ℚ :=
  min l.burst (st.tokens + (t - st.last) / l.interval)

/-- Instant at which a single token requested at `t` becomes available: now if
a token is on hand, otherwise delayed until the deficit refills. -/
def Limiter.grantTime (l : Limiter) (st : LimState) (t : ℚ) : ℚ :=
  let remaining := l.advanceTokens st t - 1
  if 0 ≤ remaining then t else t + (-remaining) * l.interval

/-- Error outcomes of `Limiter.Wait(ctx)`: the context's cancellation error,
or the limiter's own error when the context deadline is known to precede the
grant instant. -/
inductive WaitErr
  | cancelled
  | wouldExceedDeadline
deriving Repr, DecidableEq

/-- The context's deadline precedes instant `g`. -/
def Ctx.deadlineBefore (ctx : Ctx) (g : ℚ) : Bool :=
  match ctx.deadline with
  | none => false
  | some d => decide (d < g)

/-- The context is cancelled strictly before instant `g`. -/
def Ctx.cancelledBefore (ctx : Ctx) (g : ℚ) : Bool :=
  match ctx.cancelAt with
  | none => false
  | some tc => decide (tc < g)

/-- Modelled from the spec: `rate.Limiter.Wait(ctx)` for one token requested
at instant `t`.  Checks `ctx.Err()` first; refuses immediately when the
context deadline precedes the grant instant; returns the context's
cancellation error when the context is cancelled while waiting; otherwise
blocks until the grant instant and consumes one token.  On an error the
reservation is released, so the state is unchanged. -/
def Limiter.wait (l : Limiter) (st : LimState) (t : ℚ) (ctx : Ctx) :
    Except WaitErr (ℚ × LimState) :=
  if ctx.cancelledAt t then .error .cancelled
  else if ctx.deadlineBefore (l.grantTime st t) then .error .wouldExceedDeadline
  else if ctx.cancelledBefore (l.grantTime st t) then .error .cancelled
  else .ok (l.grantTime st t, ⟨l.advanceTokens st t - 1, t⟩)

/-! ## Reading Fetcher (src/main.go, package egain, fetcher section) -/

/-- A `zap.Logger` handle; the core only threads it around. -/
structure Logger where
  id : Nat := 0
deriving Repr, DecidableEq

/-- Go struct `egain.Client`: the HTTP client is an external collaborator and
carries no state the claims observe, so only the limiter, logger and sensor
list are modelled. -/
structure Client where
  limit : Limiter
  log : Logger
  sensors : List Sensor
deriving Repr, DecidableEq

/-- Go type `egain.Option`: `func(c *Client) error`, applied in order by
`NewFetcher`. -/
def ClientOption := Client → Except String Client

/-- `egain.NewFetcher`: builds the default client — limiter
`rate.NewLimiter(rate.Every(5*time.Second), 4)`, global logger, no sensors —
then applies the options in order, failing on the first option error. -/
def NewFetcher (opts : List ClientOption) : Except String Client :=
  opts.foldlM (fun c o => o c)
    { limit := ⟨5, 4⟩, log := ⟨0⟩, sensors := [] }

/-- `egain.WithSensors`: sets the sensor list, unconditionally returns nil. -/
def WithSensors (s : List Sensor) : ClientOption :=
  fun c => .ok { c with sensors := s }

/-- `egain.WithLogger`: sets the logger, unconditionally returns nil. -/
def WithLogger (l : Logger) : ClientOption :=
  fun c => .ok { c with log := l }

/-- Outcome of `c.client.Do(req)` for one call: a transport error
(connection failure, or the context expiring mid-exchange is handled
separately), or a response with an HTTP status code, an exchange duration,
and a body whose JSON decoding either fails or yields an `indoorData`. -/
inductive HttpOutcome
  | transportFailure (msg : String)
  | response (status : Nat) (dur : ℚ) (body : Except String indoorData)
deriving Repr

/-- Errors a single `fetchSensorData` call can return. -/
inductive FetchErr
  | limiterWait (e : WaitErr)
  | transport (msg : String)
  | exchangeTimeout
  | decode (msg : String)
deriving Repr, DecidableEq

/-- The deadline installed by `context.WithTimeout(ctx, 30*time.Second)` at
call start `t0`: 30 seconds from `t0`, tightened by any parent deadline. -/
def fetchDeadline (ctx : Ctx) (t0 : ℚ) : ℚ :=
  match ctx.deadline with
  | none => t0 + 30
  | some d => min d (t0 + 30)

/-- `Client.fetchSensorData` (src/main.go lines 227-259), for a call starting
at instant `t0` with limiter state `st` and HTTP outcome `out`:

1. wraps the context with a 30-second timeout;
2. builds the GET request (the constant URL format cannot fail);
3. waits on the shared limiter `c.limit` under the wrapped context,
   returning the wait error on failure;
4. performs the HTTP exchange; a transport failure, or the wrapped deadline
   expiring before the exchange completes, fails the call;
5. decodes the body as `indoorData` — the HTTP status code is never
   inspected — and on success returns the reading paired with the sensor.

Returns the call result, the limiter state after the call, and the instant at
which the call returns. -/
def Client.fetchSensorData (c : Client) (ctx : Ctx) (s : Sensor) (t0 : ℚ)
    (st : LimState) (out : HttpOutcome) :
    Except FetchErr SensorReading × LimState × ℚ :=
  let d := fetchDeadline ctx t0
  let innerCtx : Ctx := { deadline := some d, cancelAt := ctx.cancelAt }
  match c.limit.wait st t0 innerCtx with
  | .error e => (.error (.limiterWait e), st, t0)
  | .ok (grant, st2) =>
    match out with
    | .transportFailure msg => (.error (.transport msg), st2, grant)
    | .response _ dur body =>
      if d < grant + dur then (.error .exchangeTimeout, st2, d)
      else
        match body with
        | .error msg => (.error (.decode msg), st2, grant + dur)
        | .ok data => (.ok ⟨data, s⟩, st2, grant + dur)

/-! ## Poll Cycle Coordinator (src/main.go, `Client.Fetch`, lines 262-277) -/

/-- The `for _, sensor := range c.sensors` loop of `Fetch`: each sensor is
fetched in order through the shared limiter; on error the sensor's identifier
is logged and the loop continues; on success the reading is appended.
Returns (readings, logged sensor identifiers, final limiter state, final
instant). -/
def fetchLoop (c : Client) (ctx : Ctx) (out : Sensor → HttpOutcome) :
    List Sensor → LimState → ℚ →
    List SensorReading × List String × LimState × ℚ
  | [], st, t => ([], [], st, t)
  | s :: rest, st, t =>
    let step := c.fetchSensorData ctx s t st (out s)
    let tail := fetchLoop c ctx out rest step.2.1 step.2.2
    match step.1 with
    | .error _ => (tail.1, s.sensorID :: tail.2.1, tail.2.2)
    | .ok r => (r :: tail.1, tail.2.1, tail.2.2)

/-- `Client.Fetch` (src/main.go lines 262-277): runs the loop over
`c.sensors` and returns `(r, nil)` — the error component is always `none`,
whatever the per-sensor outcomes were. -/
def Client.Fetch (c : Client) (ctx : Ctx) (t0 : ℚ) (st : LimState)
    (out : Sensor → HttpOutcome) :
    (List SensorReading × List String × LimState × ℚ) × Option FetchErr :=
  (fetchLoop c ctx out c.sensors st t0, none)

/-! ## Scheduler (src/main.go, `main`, lines 97-141)

`main` calls `readSensors()` once, then enters `for { select { case <-ticker.C:
readSensors() ; case <-ctx.Done(): return } }` with a 1-minute ticker.  A run
is driven by the finite sequence of events the `select` resolves to; the run
is observed as the trace of cycle starts and event receipts. -/

/-- One resolution of the `select`: a ticker tick or the context's Done. -/
inductive SchedEvent
  | tick
  | done
deriving Repr, DecidableEq

/-- Observable items of a scheduler run, in order. -/
inductive TraceItem
  | cycleRun
  | tickSeen
  | doneSeen
deriving Repr, DecidableEq

/-- The `for`/`select` loop of `main`: each tick is followed by exactly one
`readSensors()` call; on Done the loop returns and consumes nothing further. -/
def schedLoop : List SchedEvent → List TraceItem
  | [] => []
  | .tick :: es => .tickSeen :: .cycleRun :: schedLoop es
  | .done :: _ => [.doneSeen]

/-- The scheduling portion of `main` (lines 131-140): one immediate
`readSensors()` call, then the ticker loop. -/
def mainTrace (events : List SchedEvent) : List TraceItem :=
  .cycleRun :: schedLoop events

/-- Ticker interval armed in `main` (line 97), in seconds. -/
def tickerIntervalSeconds : ℚ := 60

/-! ## First revision (src/unnamed/part_000): per-sensor goroutine body

The goroutine started for each sensor (part_000 lines 118-147) performs one
initial fetch-and-publish, then loops on the ticker.  `fetchData` returns
`(*indoorData, error)`; the nil pointer of a failed fetch is an `Option`. -/

/-- Observable actions of the first revision's goroutine body. -/
inductive R1Action
  | logStartingRoutine
  | logFailedFetch
  | logFetched (temp hum : ℚ)
  | setTemperatureGauge (v : ℚ)
  | setHumidityGauge (v : ℚ)
deriving Repr, DecidableEq

/-- A run of the body either completes with its action list or panics on a
nil-pointer dereference, with the actions performed up to the panic. -/
inductive R1Outcome
  | completed (actions : List R1Action)
  | nilDereferencePanic (actionsBefore : List R1Action)
deriving Repr, DecidableEq

/-- The initial startup attempt of the first revision's per-sensor goroutine
(part_000 lines 123-130): log the routine start; fetch; if the fetch errored,
log the failure — and then, with no `return` or `continue`, fall through to
`logger.Info("Fetched data", zap.Float64("temperature", data.Temperature),
...)`, which dereferences `data`; when the fetch failed, `data` is nil and
the dereference panics.  On success, the reading is logged and both gauges
are set. -/
def r1InitialAttempt (fetch : Except String indoorData) : R1Outcome :=
  let data : Option indoorData := match fetch with
    | .ok d => some d
    | .error _ => none
  let pre : List R1Action := match fetch with
    | .ok _ => [.logStartingRoutine]
    | .error _ => [.logStartingRoutine, .logFailedFetch]
  match data with
  | none => .nilDereferencePanic pre
  | some d =>
    .completed (pre ++
      [.logFetched d.temperature d.humidity,
       .setTemperatureGauge d.temperature,
       .setHumidityGauge d.humidity])

/-- One ticker iteration of the same goroutine (part_000 lines 134-142): here
a fetch error is followed by `continue`, so the nil reading is never
dereferenced. -/
def r1TickAttempt (fetch : Except String indoorData) : R1Outcome :=
  match fetch with
  | .error _ => .completed [.logFailedFetch]
  | .ok d =>
    .completed
      [.logFetched d.temperature d.humidity,
       .setTemperatureGauge d.temperature,
       .setHumidityGauge d.humidity]

/-! ## Concrete fixtures

Inputs used to evaluate the embedded code at specific points: the spec's
scenario sensor/reading, a semantically empty payload, and a five-sensor
client for exercising the shared limiter's burst. -/

/-- The spec scenario's sensor: `sensors = {"A": "kitchen"}`. -/
def sensorA : Sensor := { location := "kitchen", sensorID := "A" }

/-- A second sensor, as in the spec's two-sensor scenario. -/
def sensorB : Sensor := { location := "bath", sensorID := "B" }

/-- The spec scenario's payload: temperature 21.5, humidity 40.0, captured at
2024-01-01T00:00:00Z (epoch second 1704067200). -/
def scenarioData : indoorData :=
  { humidity := 40, temperature := 21.5, timestamp := 1704067200 }

/-- A syntactically valid but semantically empty payload: zero capture
timestamp, arbitrary other fields. -/
def zeroStampData : indoorData :=
  { humidity := 7, temperature := 5, timestamp := 0 }

/-- Five sensors, one more than the limiter burst. -/
def burstSensors : List Sensor :=
  [{ location := "loc", sensorID := "s1" },
   { location := "loc", sensorID := "s2" },
   { location := "loc", sensorID := "s3" },
   { location := "loc", sensorID := "s4" },
   { location := "loc", sensorID := "s5" }]

/-- A client over `burstSensors` with the source's limiter constants. -/
def burstClient : Client :=
  { limit := ⟨5, 4⟩, log := ⟨0⟩, sensors := burstSensors }

/-- Upstream oracle answering every sensor instantly with the scenario
payload and status 200. -/
def instantOk : Sensor → HttpOutcome :=
  fun _ => .response 200 0 (.ok scenarioData)

/-- A client with the single scenario sensor. -/
def clientA : Client :=
  { limit := ⟨5, 4⟩, log := ⟨0⟩, sensors := [sensorA] }

/-- A client with the two scenario sensors. -/
def clientAB : Client :=
  { limit := ⟨5, 4⟩, log := ⟨0⟩, sensors := [sensorA, sensorB] }

/-- Upstream oracle answering every sensor with a connection failure. -/
def allFail : Sensor → HttpOutcome :=
  fun _ => .transportFailure "connection refused"

/-! ## Helper lemmas -/

/-- Recording a value and reading the same key back gives that value. -/
theorem lookupGauge_setGauge_self (g : GaugeMap) (k : GaugeKey) (v : ℚ) :
    lookupGauge (setGauge g k v) k = some v := by
  simp [lookupGauge, setGauge, List.find?]

/-- C1: For every published sensor reading, the source records the reading's
temperature value into BOTH the temperature gauge and the humidity gauge
(src/main.go line 120 passes `data.Temperature` to `humidity.Record`).  On
the spec's scenario — sensor ("A", "kitchen"), temperature 21.5, humidity
40.0 — the humidity gauge ends at 21.5, not at the humidity value 40.0 the
claim requires. -/
theorem humidity_gauge_records_temperature_value :
    lookupGauge (readSensors 1704067260 {} (.ok [⟨scenarioData, sensorA⟩])).temperature
      ("A", "kitchen") = some 21.5 ∧
    lookupGauge (readSensors 1704067260 {} (.ok [⟨scenarioData, sensorA⟩])).humidity
      ("A", "kitchen") = some 21.5 ∧
    lookupGauge (readSensors 1704067260 {} (.ok [⟨scenarioData, sensorA⟩])).humidity
      ("A", "kitchen") ≠ some 40 := by
  refine ⟨?_, ?_, ?_⟩
  · simp [readSensors, publishReading, scenarioData, sensorA,
      lookupGauge, setGauge, List.find?]
  · simp [readSensors, publishReading, scenarioData, sensorA,
      lookupGauge, setGauge, List.find?]
  · simp [readSensors, publishReading, scenarioData, sensorA,
      lookupGauge, setGauge, List.find?]
    norm_num

/-- C2 counterexample: a successfully decoded reading whose capture timestamp
is the zero value is NOT skipped — `readSensors` validates nothing, so the
zero-timestamp payload `zeroStampData` for sensor ("B", "bath") mutates the
temperature gauge, the humidity gauge and the staleness histogram in the same
cycle, contradicting the claim at this concrete input. -/
theorem zero_timestamp_reading_mutates_gauges :
    lookupGauge (readSensors 100 {} (.ok [⟨zeroStampData, sensorB⟩])).temperature
      ("B", "bath") = some 5 ∧
    lookupGauge (readSensors 100 {} (.ok [⟨zeroStampData, sensorB⟩])).humidity
      ("B", "bath") = some 5 ∧
    (readSensors 100 {} (.ok [⟨zeroStampData, sensorB⟩])).lastReadingHist
      = [(("B", "bath"), 100)] := by
  refine ⟨?_, ?_, ?_⟩ <;>
    simp [readSensors, publishReading, zeroStampData, sensorB,
      lookupGauge, setGauge, List.find?]

/-- C2 amended: the poll cycle performs no capture-timestamp validation — a
successfully decoded reading with zero capture timestamp is published like
any other: the temperature and humidity gauges at its key are overwritten
(both with the temperature value, per the recording slip) and a staleness
sample is appended. -/
theorem readSensors_publishes_zero_timestamp (now : ℚ) (m : Metrics)
    (r : SensorReading) (h : r.data.timestamp = 0) :
    lookupGauge (readSensors now m (.ok [r])).temperature
      (r.sensor.sensorID, r.sensor.location) = some r.data.temperature ∧
    lookupGauge (readSensors now m (.ok [r])).humidity
      (r.sensor.sensorID, r.sensor.location) = some r.data.temperature ∧
    (readSensors now m (.ok [r])).lastReadingHist
      = m.lastReadingHist ++ [((r.sensor.sensorID, r.sensor.location), now)] := by
  refine ⟨?_, ?_, ?_⟩ <;>
    simp [readSensors, publishReading, lookupGauge_setGauge_self, h]

/-- C2 amended, witness: the zero-timestamp payload for sensor ("B", "bath")
published at instant 100 into empty metrics. -/
theorem readSensors_publishes_zero_timestamp_witness :
    lookupGauge (readSensors 100 {} (.ok [⟨zeroStampData, sensorB⟩])).temperature
      (("B":String), ("bath":String)) = some 5 ∧
    lookupGauge (readSensors 100 {} (.ok [⟨zeroStampData, sensorB⟩])).humidity
      (("B":String), ("bath":String)) = some 5 := by
  have h := readSensors_publishes_zero_timestamp 100 {}
    ⟨zeroStampData, sensorB⟩ (by simp [zeroStampData])
  simp [sensorB, zeroStampData] at h
  exact ⟨h.1, h.2.1⟩

/-- C10: `NewFetcher` with the `WithLogger` and `WithSensors` options (the
two options `main` passes) always succeeds: both options unconditionally
return nil, so the fold over options never takes the error branch and the
construction-failure branch in `main` is unreachable. -/
theorem NewFetcher_with_options_always_succeeds (s : List Sensor) (l : Logger) :
    NewFetcher [WithLogger l, WithSensors s]
      = .ok { limit := ⟨5, 4⟩, log := l, sensors := s } := rfl

/-- C9: in the first revision (src/unnamed/part_000 lines 123-130), when the
initial startup fetch returns an error the goroutine body logs the failure
and then — lacking a `return` — falls through and dereferences the nil
reading, panicking; the ticker-loop branch of the same body (lines 134-142)
does `continue` on error and never dereferences.  This contradicts the
claim's safety property and the code's own in-loop error handling. -/
theorem r1_initial_error_branch_dereferences_nil :
    r1InitialAttempt (.error "connection refused")
      = .nilDereferencePanic [.logStartingRoutine, .logFailedFetch] ∧
    r1TickAttempt (.error "connection refused")
      = .completed [.logFailedFetch] := ⟨rfl, rfl⟩

/-- A successful `fetchSensorData` call pairs the decoded payload with the
very sensor it was called for. -/
theorem fetchSensorData_ok_sensor (c : Client) (ctx : Ctx) (s : Sensor)
    (t0 : ℚ) (st : LimState) (out : HttpOutcome) (r : SensorReading)
    (h : (c.fetchSensorData ctx s t0 st out).1 = .ok r) : r.sensor = s := by
  simp only [Client.fetchSensorData] at h
  split at h
  · simp at h
  · split at h
    · simp at h
    · split at h
      · simp at h
      · split at h
        · simp at h
        · simp at h
          rw [← h]

/-- C7 counterexample: an HTTP exchange yielding status 500 with a decodable
body does not fail — the status code is never inspected, so the body is
decoded and the call succeeds with the decoded reading. -/
theorem non_2xx_response_body_is_decoded :
    (clientA.fetchSensorData ⟨none, none⟩ sensorA 0 ⟨4, 0⟩
        (.response 500 1 (.ok scenarioData))).1
      = .ok ⟨scenarioData, sensorA⟩ := by
  simp [Client.fetchSensorData, Limiter.wait, Limiter.grantTime,
    Limiter.advanceTokens, Ctx.cancelledAt, Ctx.deadlineBefore,
    Ctx.cancelledBefore, fetchDeadline, clientA]
  norm_num

/-- C7 amended: the fetcher never inspects the HTTP status code — the call's
result is the same whatever status the response carries; only transport
failures (and context expiry) fail the exchange, and a response body is
always decoded, failing only if decoding fails. -/
theorem fetchSensorData_ignores_status_code (c : Client) (ctx : Ctx)
    (s : Sensor) (t0 : ℚ) (st : LimState) (status1 status2 : Nat) (dur : ℚ)
    (body : Except String indoorData) :
    c.fetchSensorData ctx s t0 st (.response status1 dur body)
      = c.fetchSensorData ctx s t0 st (.response status2 dur body) := rfl

/-- Structure of one pass of the `Fetch` loop: the readings and logged
identifiers together account for every sensor in the list, each sensor
showing up either as a logged failure or as a forwarded reading carrying that
sensor. -/
theorem fetchLoop_accounts_all (c : Client) (ctx : Ctx)
    (out : Sensor → HttpOutcome) :
    ∀ (ss : List Sensor) (st : LimState) (t : ℚ),
      (fetchLoop c ctx out ss st t).1.length
          + (fetchLoop c ctx out ss st t).2.1.length = ss.length ∧
      ∀ s ∈ ss,
        s.sensorID ∈ (fetchLoop c ctx out ss st t).2.1 ∨
        ∃ r ∈ (fetchLoop c ctx out ss st t).1, r.sensor = s := by
  intro ss
  induction ss with
  | nil => intro st t; simp [fetchLoop]
  | cons s rest ih =>
    intro st t
    simp only [fetchLoop]
    cases hs : (c.fetchSensorData ctx s t st (out s)).1 with
    | error e =>
      dsimp only
      obtain ⟨hlen, hmem⟩ :=
        ih (c.fetchSensorData ctx s t st (out s)).2.1
          (c.fetchSensorData ctx s t st (out s)).2.2
      constructor
      · simp only [List.length_cons]
        omega
      · intro x hx
        rcases List.mem_cons.mp hx with hx1 | hx1
        · subst hx1; exact Or.inl (List.mem_cons_self _ _)
        · rcases hmem x hx1 with hm | ⟨r, hr, hrs⟩
          · exact Or.inl (List.mem_cons_of_mem _ hm)
          · exact Or.inr ⟨r, hr, hrs⟩
    | ok r0 =>
      dsimp only
      obtain ⟨hlen, hmem⟩ :=
        ih (c.fetchSensorData ctx s t st (out s)).2.1
          (c.fetchSensorData ctx s t st (out s)).2.2
      constructor
      · simp only [List.length_cons]
        omega
      · intro x hx
        rcases List.mem_cons.mp hx with hx1 | hx1
        · subst hx1
          exact Or.inr ⟨r0, List.mem_cons_self _ _,
            fetchSensorData_ok_sensor c ctx x t st (out x) r0 hs⟩
        · rcases hmem x hx1 with hm | ⟨r, hr, hrs⟩
          · exact Or.inl hm
          · exact Or.inr ⟨r, List.mem_cons_of_mem _ hr, hrs⟩

/-- C3: one poll cycle attempts every sensor — each configured sensor ends
the cycle either logged as a failure or forwarded as a reading — a failing
sensor never aborts the loop, and the cycle's error result is `nil`
unconditionally, zero successes included. -/
theorem Fetch_attempts_every_sensor_and_returns_nil_error
    (c : Client) (ctx : Ctx) (t0 : ℚ) (st : LimState)
    (out : Sensor → HttpOutcome) :
    (c.Fetch ctx t0 st out).2 = none ∧
    (c.Fetch ctx t0 st out).1.1.length + (c.Fetch ctx t0 st out).1.2.1.length
      = c.sensors.length ∧
    ∀ s ∈ c.sensors,
      s.sensorID ∈ (c.Fetch ctx t0 st out).1.2.1 ∨
      ∃ r ∈ (c.Fetch ctx t0 st out).1.1, r.sensor = s := by
  obtain ⟨hlen, hmem⟩ := fetchLoop_accounts_all c ctx out c.sensors st t0
  exact ⟨rfl, hlen, hmem⟩

/-- C3 witness: both sensors of `clientAB` failing with a connection error —
the cycle still returns a `nil` error, and sensor "A" is accounted for. -/
theorem Fetch_attempts_every_sensor_witness :
    (clientAB.Fetch ⟨none, none⟩ 0 ⟨4, 0⟩ allFail).2 = none ∧
    (sensorA ∈ clientAB.sensors) ∧
    (sensorA.sensorID ∈ (clientAB.Fetch ⟨none, none⟩ 0 ⟨4, 0⟩ allFail).1.2.1 ∨
      ∃ r ∈ (clientAB.Fetch ⟨none, none⟩ 0 ⟨4, 0⟩ allFail).1.1, r.sensor = sensorA) := by
  have h := Fetch_attempts_every_sensor_and_returns_nil_error
    clientAB ⟨none, none⟩ 0 ⟨4, 0⟩ allFail
  have hmemA : sensorA ∈ clientAB.sensors := by
    simp [clientAB]
  exact ⟨h.1, hmemA, h.2.2 sensorA hmemA⟩

/-- Every reading collected by the `Fetch` loop carries one of the sensors of
the list it iterated, exactly as configured. -/
theorem fetchLoop_readings_sensors (c : Client) (ctx : Ctx)
    (out : Sensor → HttpOutcome) :
    ∀ (ss : List Sensor) (st : LimState) (t : ℚ),
      ∀ r ∈ (fetchLoop c ctx out ss st t).1, r.sensor ∈ ss := by
  intro ss
  induction ss with
  | nil => intro st t r hr; simp [fetchLoop] at hr
  | cons s rest ih =>
    intro st t r
    simp only [fetchLoop]
    cases hs : (c.fetchSensorData ctx s t st (out s)).1 with
    | error e =>
      dsimp only
      intro hr
      exact List.mem_cons_of_mem _ (ih _ _ r hr)
    | ok r0 =>
      dsimp only
      intro hr
      rcases List.mem_cons.mp hr with h1 | h1
      · subst h1
        rw [fetchSensorData_ok_sensor c ctx s t st (out s) r hs]
        exact List.mem_cons_self _ _
      · exact List.mem_cons_of_mem _ (ih _ _ r h1)

/-- C5 counterexample: a cycle in which the single sensor's fetch succeeds
with a valid (non-zero-timestamp) reading forwards the sensor exactly as
configured — its `lastReading` field still the zero value — so no
last-successful-reading timestamp was updated before or while forwarding. -/
theorem lastReading_not_updated_on_valid_reading :
    scenarioData.timestamp ≠ 0 ∧
    (clientA.Fetch ⟨none, none⟩ 0 ⟨4, 0⟩ instantOk).1.1
      = [⟨scenarioData, sensorA⟩] ∧
    ((clientA.Fetch ⟨none, none⟩ 0 ⟨4, 0⟩ instantOk).1.1.map
        (fun r => r.sensor.lastReading)) = [0] := by
  refine ⟨by norm_num [scenarioData], ?_, ?_⟩ <;>
    norm_num [Client.Fetch, fetchLoop, Client.fetchSensorData, Limiter.wait,
      Limiter.grantTime, Limiter.advanceTokens, Ctx.cancelledAt,
      Ctx.deadlineBefore, Ctx.cancelledBefore, fetchDeadline,
      clientA, instantOk, sensorA, scenarioData]

/-- C5 amended: the coordinator never updates any sensor's `lastReading`
field — every (sensor, reading) pair it forwards carries a sensor value
exactly as it sits in the client's configuration, the `lastReading` field
included; staleness is instead measured from the reading's own capture
timestamp by the publisher. -/
theorem Fetch_forwards_sensors_unchanged (c : Client) (ctx : Ctx) (t0 : ℚ)
    (st : LimState) (out : Sensor → HttpOutcome) :
    ∀ r ∈ (c.Fetch ctx t0 st out).1.1, r.sensor ∈ c.sensors :=
  fun r hr => fetchLoop_readings_sensors c ctx out c.sensors st t0 r hr

/-- C5 amended, witness: the scenario cycle's forwarded reading carries a
configured sensor of `clientA`. -/
theorem Fetch_forwards_sensors_unchanged_witness :
    (⟨scenarioData, sensorA⟩ : SensorReading).sensor ∈ clientA.sensors := by
  have h := Fetch_forwards_sensors_unchanged clientA ⟨none, none⟩ 0 ⟨4, 0⟩
    instantOk
  exact h ⟨scenarioData, sensorA⟩
    (by norm_num [Client.Fetch, fetchLoop, Client.fetchSensorData, Limiter.wait,
      Limiter.grantTime, Limiter.advanceTokens, Ctx.cancelledAt,
      Ctx.deadlineBefore, Ctx.cancelledBefore, fetchDeadline,
      clientA, instantOk, sensorA, scenarioData])

/-- In the ticker loop, one cycle runs per tick seen. -/
theorem schedLoop_count (es : List SchedEvent) :
    (schedLoop es).count .cycleRun = (schedLoop es).count .tickSeen := by
  induction es with
  | nil => rfl
  | cons e rest ih => cases e <;> simp [schedLoop, List.count_cons, ih]

/-- Once Done is observed the ticker loop returns: nothing follows
`doneSeen` in the loop's trace. -/
theorem schedLoop_nothing_after_done (es : List SchedEvent) :
    ∀ l1 l2, schedLoop es = l1 ++ .doneSeen :: l2 → l2 = [] := by
  induction es with
  | nil => intro l1 l2 h; simp [schedLoop] at h
  | cons e rest ih =>
    cases e with
    | tick =>
      intro l1 l2 h
      simp only [schedLoop] at h
      cases l1 with
      | nil => simp at h
      | cons a l1 =>
        rw [List.cons_append] at h
        obtain ⟨-, h⟩ := List.cons.inj h
        cases l1 with
        | nil => simp at h
        | cons b l1 =>
          rw [List.cons_append] at h
          obtain ⟨-, h⟩ := List.cons.inj h
          exact ih l1 l2 h
    | done =>
      intro l1 l2 h
      simp only [schedLoop] at h
      cases l1 with
      | nil => simpa using h
      | cons a l1 =>
        rw [List.cons_append] at h
        obtain ⟨-, h⟩ := List.cons.inj h
        exact absurd h (by simp)

/-- C6: the scheduler of `main` runs one full poll cycle immediately — the
head of the run's trace is a cycle, before any tick is consumed — then one
cycle per ticker tick (ticker interval 60 seconds), and once the
cancellation signal is observed nothing further happens in the trace. -/
theorem scheduler_immediate_then_per_tick_until_done (events : List SchedEvent) :
    tickerIntervalSeconds = 60 ∧
    (mainTrace events).head? = some .cycleRun ∧
    (mainTrace events).count .cycleRun = 1 + (mainTrace events).count .tickSeen ∧
    ∀ l1 l2, mainTrace events = l1 ++ .doneSeen :: l2 → l2 = [] := by
  refine ⟨rfl, rfl, ?_, ?_⟩
  · simp [mainTrace, List.count_cons, schedLoop_count events, Nat.add_comm]
  · intro l1 l2 h
    cases l1 with
    | nil => simp [mainTrace] at h
    | cons a l1 =>
      rw [List.cons_append] at h
      obtain ⟨-, h⟩ := List.cons.inj (show
        TraceItem.cycleRun :: schedLoop events = a :: (l1 ++ .doneSeen :: l2)
        from h)
      exact schedLoop_nothing_after_done events l1 l2 h

/-- C6 witness: the run over ticks, a cancellation, and a further (never
consumed) tick. -/
theorem scheduler_immediate_witness :
    (mainTrace [.tick, .tick, .done, .tick]).head? = some .cycleRun ∧
    (mainTrace [.tick, .tick, .done, .tick]).count .cycleRun
      = 1 + (mainTrace [.tick, .tick, .done, .tick]).count .tickSeen ∧
    ([] : List TraceItem) = [] := by
  have h := scheduler_immediate_then_per_tick_until_done
    [.tick, .tick, .done, .tick]
  exact ⟨h.2.1, h.2.2.1,
    h.2.2.2 [.cycleRun, .tickSeen, .cycleRun, .tickSeen, .cycleRun] [] (by rfl)⟩

/-- A successful limiter wait grants at the computed grant instant, and that
instant does not lie past the context deadline. -/
theorem wait_ok_facts (l : Limiter) (st : LimState) (t : ℚ) (ctx : Ctx)
    (g : ℚ) (st2 : LimState) (h : l.wait st t ctx = .ok (g, st2)) :
    g = l.grantTime st t ∧ ctx.deadlineBefore (l.grantTime st t) = false := by
  simp only [Limiter.wait] at h
  split at h
  · simp at h
  · split at h
    · simp at h
    · split at h
      · simp at h
      · rename_i hc hd hcc
        simp only [Except.ok.injEq, Prod.mk.injEq] at h
        exact ⟨h.1.symm, by simpa using hd⟩

/-- A `fetchSensorData` call that succeeds returns at an instant no later
than the context deadline installed at call start. -/
theorem fetchSensorData_ok_end_le (c : Client) (ctx : Ctx) (s : Sensor)
    (t0 : ℚ) (st : LimState) (out : HttpOutcome) (r : SensorReading)
    (h : (c.fetchSensorData ctx s t0 st out).1 = .ok r) :
    (c.fetchSensorData ctx s t0 st out).2.2 ≤ fetchDeadline ctx t0 := by
  simp only [Client.fetchSensorData] at h ⊢
  cases hw : Limiter.wait c.limit st t0
      { deadline := some (fetchDeadline ctx t0), cancelAt := ctx.cancelAt } with
  | error e => rw [hw] at h; simp at h
  | ok p =>
    obtain ⟨grant, st2⟩ := p
    rw [hw] at h
    have hg := wait_ok_facts c.limit st t0
      { deadline := some (fetchDeadline ctx t0), cancelAt := ctx.cancelAt }
      grant st2 hw
    have hgle : grant ≤ fetchDeadline ctx t0 := by
      rcases hg with ⟨hg1, hg2⟩
      rw [hg1]
      simpa [Ctx.deadlineBefore] using hg2
    cases out with
    | transportFailure msg => dsimp only at h; simp at h
    | response status dur body =>
      dsimp only at h ⊢
      by_cases hd : fetchDeadline ctx t0 < grant + dur
      · rw [if_pos hd] at h; simp at h
      · rw [if_neg hd] at h ⊢
        cases body with
        | error msg => dsimp only at h; simp at h
        | ok data => exact le_of_not_lt hd

/-- C8: every `fetchSensorData` call is governed by one deadline computed at
call start — 30 seconds from call start, tightened by any parent deadline,
and exactly `t0 + 30` when the parent carries none — and that one deadline
covers both phases: a rate-limiter wait that would outlast it fails with the
limiter's deadline error, an HTTP exchange that would outlast it fails with
the context timeout error, and a successful call returns by the deadline. -/
theorem fetch_thirty_second_budget (c : Client) (s : Sensor) (t0 : ℚ)
    (st : LimState) (out : HttpOutcome) :
    (∀ ctx : Ctx, fetchDeadline ctx t0 ≤ t0 + 30) ∧
    fetchDeadline ⟨none, none⟩ t0 = t0 + 30 ∧
    (t0 + 30 < c.limit.grantTime st t0 →
      (c.fetchSensorData ⟨none, none⟩ s t0 st out).1
        = .error (.limiterWait .wouldExceedDeadline)) ∧
    (∀ (status : Nat) (dur : ℚ) (body : Except String indoorData),
      c.limit.grantTime st t0 ≤ t0 + 30 →
      t0 + 30 < c.limit.grantTime st t0 + dur →
      (c.fetchSensorData ⟨none, none⟩ s t0 st
          (.response status dur body)).1 = .error .exchangeTimeout) ∧
    (∀ r : SensorReading,
      (c.fetchSensorData ⟨none, none⟩ s t0 st out).1 = .ok r →
      (c.fetchSensorData ⟨none, none⟩ s t0 st out).2.2 ≤ t0 + 30) := by
  refine ⟨?_, rfl, ?_, ?_, ?_⟩
  · intro ctx
    cases hd : ctx.deadline with
    | none => simp [fetchDeadline, hd]
    | some d => simp [fetchDeadline, hd, min_le_right]
  · intro h
    simp [Client.fetchSensorData, Limiter.wait, Ctx.cancelledAt,
      Ctx.deadlineBefore, Ctx.cancelledBefore, fetchDeadline, h]
  · intro status dur body h1 h2
    simp [Client.fetchSensorData, Limiter.wait, Ctx.cancelledAt,
      Ctx.deadlineBefore, Ctx.cancelledBefore, fetchDeadline,
      not_lt.mpr h1, h2]
  · intro r h
    simpa [fetchDeadline] using
      fetchSensorData_ok_end_le c ⟨none, none⟩ s t0 st out r h

/-- C8 witness: with an empty bucket whose grant would land at instant 35,
the wait phase exhausts the budget of a call starting at 0; with a full
bucket and a 31-second exchange, the exchange phase does; and the successful
scenario call returns within 30 seconds of call start. -/
theorem fetch_thirty_second_budget_witness :
    (clientA.fetchSensorData ⟨none, none⟩ sensorA 0 ⟨-6, 0⟩
        (instantOk sensorA)).1 = .error (.limiterWait .wouldExceedDeadline) ∧
    (clientA.fetchSensorData ⟨none, none⟩ sensorA 0 ⟨4, 0⟩
        (.response 200 31 (.ok scenarioData))).1 = .error .exchangeTimeout ∧
    (clientA.fetchSensorData ⟨none, none⟩ sensorA 0 ⟨4, 0⟩
        (instantOk sensorA)).2.2 ≤ (0 : ℚ) + 30 := by
  refine ⟨?_, ?_, ?_⟩
  · exact (fetch_thirty_second_budget clientA sensorA 0 ⟨-6, 0⟩
      (instantOk sensorA)).2.2.1
      (by norm_num [clientA, Limiter.grantTime, Limiter.advanceTokens])
  · exact (fetch_thirty_second_budget clientA sensorA 0 ⟨4, 0⟩
      (.response 200 31 (.ok scenarioData))).2.2.2.1 200 31 (.ok scenarioData)
      (by norm_num [clientA, Limiter.grantTime, Limiter.advanceTokens])
      (by norm_num [clientA, Limiter.grantTime, Limiter.advanceTokens])
  · exact (fetch_thirty_second_budget clientA sensorA 0 ⟨4, 0⟩
      (instantOk sensorA)).2.2.2.2 ⟨scenarioData, sensorA⟩
      (by norm_num [Client.fetchSensorData, Limiter.wait, Limiter.grantTime,
        Limiter.advanceTokens, Ctx.cancelledAt, Ctx.deadlineBefore,
        Ctx.cancelledBefore, fetchDeadline, clientA, instantOk, sensorA,
        scenarioData])

/-- C4: one shared limiter with refill one token per 5 seconds and burst 4
governs all fetches — `NewFetcher` installs it once and no option replaces
it; a wait under a context with neither deadline nor cancellation always
grants (an exhausted burst delays, it never rejects); concretely, a cycle
over five sensors starting at instant 0 with a full bucket collects all five
readings, the fifth delayed to instant 5 by the tokens the other four drew
from the same bucket; and a context cancelled while a fetch is waiting for a
token fails that fetch with the cancellation error. -/
theorem shared_rate_limiter_delays_and_cancels :
    (∀ (s : List Sensor) (l : Logger) (c : Client),
        NewFetcher [WithLogger l, WithSensors s] = .ok c → c.limit = ⟨5, 4⟩) ∧
    (∀ (st : LimState) (t : ℚ), ∃ g st2,
        Limiter.wait ⟨5, 4⟩ st t ⟨none, none⟩ = .ok (g, st2)) ∧
    ((burstClient.Fetch ⟨none, none⟩ 0 ⟨4, 0⟩ instantOk).1.1.length = 5 ∧
      (burstClient.Fetch ⟨none, none⟩ 0 ⟨4, 0⟩ instantOk).1.2.1 = [] ∧
      (burstClient.Fetch ⟨none, none⟩ 0 ⟨4, 0⟩ instantOk).1.2.2.2 = 5) ∧
    (∀ (c : Client) (s : Sensor) (t0 : ℚ) (st : LimState) (out : HttpOutcome)
        (tc : ℚ), t0 < tc → tc < c.limit.grantTime st t0 →
        c.limit.grantTime st t0 ≤ t0 + 30 →
        (c.fetchSensorData ⟨none, some tc⟩ s t0 st out).1
          = .error (.limiterWait .cancelled)) := by
  refine ⟨?_, ?_, ?_, ?_⟩
  · intro s l c h
    have hh : (Except.ok { limit := ⟨5, 4⟩, log := l, sensors := s }
        : Except String Client) = .ok c := by
      rw [← h]; rfl
    injection hh with hh2
    rw [← hh2]
  · intro st t
    exact ⟨Limiter.grantTime ⟨5, 4⟩ st t,
      ⟨Limiter.advanceTokens ⟨5, 4⟩ st t - 1, t⟩,
      by simp [Limiter.wait, Ctx.cancelledAt, Ctx.deadlineBefore,
        Ctx.cancelledBefore]⟩
  · refine ⟨?_, ?_, ?_⟩ <;>
      norm_num [Client.Fetch, fetchLoop, Client.fetchSensorData, Limiter.wait,
        Limiter.grantTime, Limiter.advanceTokens, Ctx.cancelledAt,
        Ctx.deadlineBefore, Ctx.cancelledBefore, fetchDeadline,
        burstClient, burstSensors, instantOk, scenarioData]
  · intro c s t0 st out tc h1 h2 h3
    have hnc : ¬ (tc ≤ t0) := not_le.mpr h1
    have hnd : ¬ ((min (t0 + 30) (t0 + 30) : ℚ) < c.limit.grantTime st t0) :=
      by simpa using not_lt.mpr h3
    simp [Client.fetchSensorData, Limiter.wait, Ctx.cancelledAt,
      Ctx.deadlineBefore, Ctx.cancelledBefore, fetchDeadline,
      hnc, not_lt.mpr h3, h2]

/-- C4 witness: with an empty bucket at instant 0 the grant would land at
instant 5; a context cancelled at instant 2 — after the call start, before
the grant — fails the fetch with the cancellation error. -/
theorem shared_rate_limiter_witness :
    (clientA.fetchSensorData ⟨none, some 2⟩ sensorA 0 ⟨0, 0⟩
        (instantOk sensorA)).1 = .error (.limiterWait .cancelled) := by
  have h := shared_rate_limiter_delays_and_cancels
  exact h.2.2.2 clientA sensorA 0 ⟨0, 0⟩ (instantOk sensorA) 2
    (by norm_num)
    (by norm_num [clientA, Limiter.grantTime, Limiter.advanceTokens])
    (by norm_num [clientA, Limiter.grantTime, Limiter.advanceTokens])

end AgainScraper
